import Mathlib

/-!
Formal model of the Wazuh batching mux/demux relay and its HTTP surface.

The definitions below are a shallow embedding of:
  - `framework/wazuh/core/batcher/batcher.py` (`Batcher._send_buffer`,
    `Batcher.create_flush_buffer_task`, `Batcher.run`),
  - `framework/wazuh/core/batcher/config.py` (`BatcherConfig`),
  - `apis/comms_api/routers/events.py` (`post_stateful_events`) together
    with `apis/comms_api/core/events.py` (`create_stateful_events`),
  - `api/api/encoder.py` (`default`).

Components that `batcher.py` imports but whose source is not part of this
repository snapshot (`Buffer`, the timer, the mux/demux queue internals) are
modelled from the specification, and are marked as such in their doc
comments.  Payloads, uids and indexer documents are modelled opaquely
(strings and naturals); the byte size of a payload is its length, a stable
size measure as the specification requires.
-/

namespace Wazuh

/-- Message envelope (`wazuh.core.batcher.mux_demux.Message`): a correlation
uid together with an opaque payload (`msg`). -/
structure Message where
  uid : Nat
  msg : String
deriving Repr, DecidableEq

/-- Serialized byte size of a message payload: modelled as the length of the
opaque payload string (a stable measure, as the spec requires of `size`). -/
def msgSize (m : Message) : Nat := m.msg.length

/-- Bulk document (`wazuh.core.indexer.bulk.BulkDoc.create(index, doc_id, doc)`):
the index name, a server-assigned (absent) document id, and the payload. -/
structure BulkDoc where
  index : String
  docId : Option Nat
  doc : String
deriving Repr, DecidableEq

/-- One element of the bulk response `items` array; the code reads its
`create` sub-object (`response_item["create"]`), modelled opaquely. -/
structure BulkResponseItem where
  create : String
deriving Repr, DecidableEq

/-- Observable trace of one `Batcher._send_buffer` run: the bulk request it
issued (if the bulk call was reached), the response messages it sent to the
demux, and the exception that escaped it, if any. -/
structure SendBufferTrace where
  bulkCall : Option (List BulkDoc)
  sent : List Message
  error : Option String
deriving Repr, DecidableEq

/-- `Batcher._send_buffer` (batcher.py lines 44-65): collect the uids of the
events, build one `BulkDoc.create` per event in order, call the indexer bulk
endpoint, then send to the demux one `Message` per `zip(response["items"],
list_of_uid)` pair, reusing the original uid and carrying the item's
`create` sub-object.  There is no exception handler: a raising bulk call
aborts the coroutine and nothing is sent. -/
def sendBuffer (index : String) (events : List Message)
    (bulk : List BulkDoc → Except String (List BulkResponseItem)) :
    SendBufferTrace :=
  let bulkList : List BulkDoc := events.map (fun e => BulkDoc.mk index none e.msg)
  match bulk bulkList with
  | Except.ok items =>
      SendBufferTrace.mk (some bulkList)
        ((items.zip (events.map Message.uid)).map
          (fun p => Message.mk p.2 p.1.create))
        none
  | Except.error e => SendBufferTrace.mk (some bulkList) [] (some e)

/-- Modelled from the spec: the bounded Buffer
(`wazuh.core.batcher.buffer.Buffer`, imported by batcher.py but not part of
this snapshot).  Spec section 4.B: an ordered sequence of messages with caps
`max_elements` and `max_size`; `add` appends with no limit check inside;
`count_limit_reached` is `length ≥ max_elements`; `size_limit_reached` is
`byte_size ≥ max_size` with `byte_size = Σ size(msg.payload)`; snapshot and
reset empty it.  Method names follow the call sites in batcher.py. -/
structure Buffer where
  maxElements : Nat
  maxSize : Nat
  msgs : List Message
deriving Repr, DecidableEq

/-- Running byte total of the buffer (spec invariant: the sum of payload
sizes of the contained messages). -/
def Buffer.byteSize (b : Buffer) : Nat := (b.msgs.map msgSize).sum

/-- `Buffer.add_message`: append, growing the byte total. -/
def Buffer.addMessage (b : Buffer) (m : Message) : Buffer :=
  Buffer.mk b.maxElements b.maxSize (b.msgs ++ [m])

/-- `Buffer.get_length`. -/
def Buffer.getLength (b : Buffer) : Nat := b.msgs.length

/-- `Buffer.check_count_limit`: `length ≥ max_elements`. -/
def Buffer.checkCountLimit (b : Buffer) : Bool := b.maxElements ≤ b.msgs.length

/-- `Buffer.check_size_limit`: `byte_size ≥ max_size`. -/
def Buffer.checkSizeLimit (b : Buffer) : Bool := b.maxSize ≤ b.byteSize

/-- `Buffer.copy`: the snapshot handed to the flush task. -/
def Buffer.copy (b : Buffer) : List Message := b.msgs

/-- `Buffer.reset`: empty contents, zero byte total. -/
def Buffer.reset (b : Buffer) : Buffer := Buffer.mk b.maxElements b.maxSize []

/-- `Batcher.create_flush_buffer_task` (batcher.py lines 67-72): spawn
`_send_buffer` on a copy of the buffer - unconditionally, with no emptiness
check - then reset the buffer.  Returns the spawned task's trace and the
reset buffer. -/
def createFlushBufferTask (index : String)
    (bulk : List BulkDoc → Except String (List BulkResponseItem))
    (b : Buffer) : SendBufferTrace × Buffer :=
  (sendBuffer index b.copy bulk, b.reset)

/-- Result of one task completed by the `asyncio.wait` race in
`Batcher.run`: either the timer task (whose result is not a `Message`) or
the inbound receive task carrying a message. -/
inductive TaskResult where
  | timeout
  | msg (m : Message)
deriving Repr, DecidableEq

/-- State of the batcher main loop: its buffer and whether the flush timer
is armed (timer modelled from the spec, section 4.C: armed when the first
message enters an empty buffer, disarmed on every flush). -/
structure BatcherState where
  buffer : Buffer
  timerArmed : Bool
deriving Repr, DecidableEq

/-- Body of the `for task in done` loop of `Batcher.run` (batcher.py lines
85-105) for a single completed task.  A non-`Message` result (the timer)
flushes and resets the timer; a message arms the timer when the buffer was
empty, is added, and a flush follows when the count or size limit check
fires.  Returns the new state and the snapshots handed to flush tasks. -/
def processTask (s : BatcherState) (t : TaskResult) :
    BatcherState × List (List Message) :=
  match t with
  | TaskResult.timeout =>
      (BatcherState.mk s.buffer.reset false, [s.buffer.copy])
  | TaskResult.msg m =>
      let armed := if s.buffer.getLength = 0 then true else s.timerArmed
      let b2 := s.buffer.addMessage m
      if b2.checkCountLimit || b2.checkSizeLimit then
        (BatcherState.mk b2.reset false, [b2.copy])
      else
        (BatcherState.mk b2 armed, [])

/-- `Batcher.run` over a sequence of completed task results, processed in
order (each iteration of the outer `while True` folds its `done` set task by
task; a whole run is the concatenation of those folds).  Collects every
snapshot handed to a flush task. -/
def runBatcher (s : BatcherState) : List TaskResult → BatcherState × List (List Message)
  | [] => (s, [])
  | t :: ts =>
      let r1 := processTask s t
      let r2 := runBatcher r1.1 ts
      (r2.1, r1.2 ++ r2.2)

/-- Batcher state at process start (`Batcher.__init__`): an empty buffer
with the configured caps, timer disarmed. -/
def initialState (maxElements maxSize : Nat) : BatcherState :=
  BatcherState.mk (Buffer.mk maxElements maxSize []) false

/-- Outcome of a Python positional call. -/
inductive CallOutcome (α : Type) where
  | ok (a : α)
  | typeError
deriving Repr, DecidableEq

/-- Python positional-call semantics: the call binds only when the argument
count equals the parameter count of the callee; otherwise it raises
`TypeError`. -/
def pyCall {α β : Type} (paramCount : Nat) (args : List α)
    (body : List α → β) : CallOutcome β :=
  if args.length = paramCount then CallOutcome.ok (body args) else CallOutcome.typeError

/-- Parameter count of `async def create_stateful_events(events)` in
`apis/comms_api/core/events.py`: a single parameter. -/
def createStatefulEventsParamCount : Nat := 1

/-- The call the handler makes in `apis/comms_api/routers/events.py`:
`create_stateful_events(events, request.app.state.batcher_queue)` - two
positional arguments against the one-parameter definition above.  `body` is
the body of `create_stateful_events` (opaque: it produces the indexer
response dictionary). -/
def postStatefulEventsCall (body : List String → String)
    (events queue : String) : CallOutcome String :=
  pyCall createStatefulEventsParamCount [events, queue] body

/-- Outcome of awaiting `create_stateful_events` inside the handler's `try`
block: the response dictionary, a raised `WazuhError` carrying a message, or
any other raised exception. -/
inductive CreateOutcome where
  | ok (response : String)
  | wazuhError (message : String)
  | otherError (e : String)
deriving Repr, DecidableEq

/-- What the handler produces: a `JSONResponse` built from the response, a
raised `HTTPError` with a message and status code, or a propagated
exception. -/
inductive HandlerResult where
  | jsonResponse (body : String)
  | httpError (message : String) (statusCode : Nat)
  | propagated (e : String)
deriving Repr, DecidableEq

/-- `post_stateful_events` (apis/comms_api/routers/events.py): inside `try`,
await `create_stateful_events` and return `JSONResponse(response)`; on
`WazuhError exc`, raise `HTTPError(message=exc.message, status_code=400)`;
any other exception propagates (there is no other handler). -/
def postStatefulEvents (outcome : CreateOutcome) : HandlerResult :=
  match outcome with
  | CreateOutcome.ok r => HandlerResult.jsonResponse r
  | CreateOutcome.wazuhError m => HandlerResult.httpError m 400
  | CreateOutcome.otherError e => HandlerResult.propagated e

/-- The `@timeout(30)` decorator argument on `post_stateful_events`: the
request-level timeout in seconds. -/
def postStatefulEventsTimeoutSeconds : Nat := 30

/-- `BatcherConfig` (framework/wazuh/core/batcher/config.py): exactly the
three fields assigned by `__init__`. -/
structure BatcherConfig where
  max_elements : Int
  max_size : Int
  max_time_seconds : Int
deriving Repr, DecidableEq

/-- `BatcherConfig.__init__` (config.py lines 21-24): plain attribute
assignment of the three recognized options, with no validation and no
failure path.  `Except` makes the absence of a refusal observable. -/
def batcherConfigInit (maxElements maxSize maxTimeSeconds : Int) :
    Except String BatcherConfig :=
  Except.ok (BatcherConfig.mk maxElements maxSize maxTimeSeconds)

/-- A swagger `Model` instance as seen by `api.encoder.default`: the
attribute names of `swagger_types` (dict keys, iterated in order), the
`attribute_map` renaming, and `getattr` (`none` models a `None` value);
attribute values are opaque. -/
structure EncModel where
  swaggerTypes : List String
  attributeMap : String → String
  value : String → Option String

/-- Python `result[attr] = value` on a dict modelled as an insertion-ordered
association list: replace in place when the key is present, append
otherwise. -/
def dictInsert (d : List (String × String)) (k : String) (v : String) :
    List (String × String) :=
  if d.any (fun p => p.1 = k) then
    d.map (fun p => if p.1 = k then (k, v) else p)
  else d ++ [(k, v)]

/-- `api.encoder.default` on a `Model` instance (api/api/encoder.py lines
27-35): iterate the attributes of `swagger_types`; skip attributes whose
value is `None`; store every other value in the result dict under the
`attribute_map` key. -/
def encoderDefault (o : EncModel) : List (String × String) :=
  o.swaggerTypes.foldl
    (fun result attr =>
      match o.value attr with
      | none => result
      | some v => dictInsert result (o.attributeMap attr) v)
    []

/-! ### Helper lemmas -/

theorem zip_uid_map_getElem (items : List BulkResponseItem) (uids : List Nat)
    (i : Nat) :
    ((items.zip uids).map (fun p => Message.mk p.2 p.1.create))[i]? =
      (items[i]?).bind (fun it => (uids[i]?).map (fun u => Message.mk u it.create)) := by
  induction items generalizing uids i with
  | nil => simp
  | cons a rest ih =>
    cases uids with
    | nil => simp
    | cons u urest =>
      cases i with
      | zero => simp
      | succ n => simpa using ih urest n

theorem processTask_preserves_caps (s : BatcherState) (t : TaskResult) :
    (processTask s t).1.buffer.maxElements = s.buffer.maxElements ∧
    (processTask s t).1.buffer.maxSize = s.buffer.maxSize := by
  cases t with
  | timeout => exact ⟨rfl, rfl⟩
  | msg m =>
    simp only [processTask]
    by_cases hc :
        ((s.buffer.addMessage m).checkCountLimit || (s.buffer.addMessage m).checkSizeLimit) = true
    · rw [if_pos hc]
      exact ⟨rfl, rfl⟩
    · rw [if_neg hc]
      exact ⟨rfl, rfl⟩

theorem processTask_count_invariant (s : BatcherState) (t : TaskResult)
    (hlen : s.buffer.msgs.length < s.buffer.maxElements) :
    (processTask s t).1.buffer.msgs.length < s.buffer.maxElements ∧
    ∀ batch ∈ (processTask s t).2, batch.length ≤ s.buffer.maxElements := by
  cases t with
  | timeout =>
    refine ⟨?_, ?_⟩
    · simpa [processTask, Buffer.reset] using Nat.lt_of_le_of_lt (Nat.zero_le _) hlen
    · intro batch hb
      simp only [processTask, List.mem_singleton] at hb
      subst hb
      exact Nat.le_of_lt hlen
  | msg m =>
    simp only [processTask]
    by_cases hc :
        ((s.buffer.addMessage m).checkCountLimit || (s.buffer.addMessage m).checkSizeLimit) = true
    · rw [if_pos hc]
      refine ⟨Nat.lt_of_le_of_lt (Nat.zero_le _) hlen, ?_⟩
      intro batch hb
      simp only [List.mem_singleton] at hb
      subst hb
      simpa [Buffer.copy, Buffer.addMessage] using hlen
    · rw [if_neg hc]
      refine ⟨?_, ?_⟩
      · have hcount : ¬ (s.buffer.addMessage m).checkCountLimit = true := by
          intro h
          exact hc (by simp [h])
        simp only [Buffer.checkCountLimit, decide_eq_true_eq, Nat.not_le,
          Buffer.addMessage, List.length_append, List.length_singleton] at hcount
        simpa [Buffer.addMessage] using hcount
      · intro batch hb
        simp at hb

theorem runBatcher_count_bound (ts : List TaskResult) (s : BatcherState)
    (hlen : s.buffer.msgs.length < s.buffer.maxElements) :
    ∀ batch ∈ (runBatcher s ts).2, batch.length ≤ s.buffer.maxElements := by
  induction ts generalizing s with
  | nil => simp [runBatcher]
  | cons t ts ih =>
    intro batch hb
    simp only [runBatcher, List.mem_append] at hb
    rcases hb with h1 | h2
    · exact (processTask_count_invariant s t hlen).2 batch h1
    · have hcap := processTask_preserves_caps s t
      have hnext : (processTask s t).1.buffer.msgs.length
          < (processTask s t).1.buffer.maxElements := by
        rw [hcap.1]
        exact (processTask_count_invariant s t hlen).1
      have := ih (processTask s t).1 hnext batch h2
      rwa [hcap.1] at this

end Wazuh

namespace Wazuh

/-- Claim C1: for every batch flushed by the Batcher, when the bulk call
completes with as many response items as submitted messages, `_send_buffer`
sends one response Message per response item, and the i-th response Message
carries the uid of the i-th submitted message together with the i-th item's
`create` record. -/
theorem C1_send_buffer_pairs_uids_in_order (index : String)
    (events : List Message) (items : List BulkResponseItem)
    (bulk : List BulkDoc → Except String (List BulkResponseItem))
    (hok : bulk (events.map (fun e => BulkDoc.mk index none e.msg)) = Except.ok items)
    (hlen : items.length = events.length) :
    (sendBuffer index events bulk).sent.length = items.length ∧
    ∀ i : Nat, ((sendBuffer index events bulk).sent)[i]? =
      (items[i]?).bind (fun it => (events[i]?).map (fun e => Message.mk e.uid it.create)) := by
  simp only [sendBuffer]
  rw [hok]
  constructor
  · simp [hlen]
  · intro i
    rw [zip_uid_map_getElem]
    cases h : items[i]? with
    | none => simp
    | some it =>
      simp [List.getElem?_map, Option.map_map]
      rfl

/-- Witness for C1 at a concrete two-message batch. -/
theorem C1_send_buffer_pairs_uids_in_order_witness :
    (sendBuffer "idx" [Message.mk 1 "a", Message.mk 2 "b"]
      (fun _ => Except.ok [BulkResponseItem.mk "r1", BulkResponseItem.mk "r2"])).sent.length = 2 ∧
    ((sendBuffer "idx" [Message.mk 1 "a", Message.mk 2 "b"]
      (fun _ => Except.ok [BulkResponseItem.mk "r1", BulkResponseItem.mk "r2"])).sent)[1]? =
      some (Message.mk 2 "r2") := by
  have h := C1_send_buffer_pairs_uids_in_order "idx"
    [Message.mk 1 "a", Message.mk 2 "b"]
    [BulkResponseItem.mk "r1", BulkResponseItem.mk "r2"]
    (fun _ => Except.ok [BulkResponseItem.mk "r1", BulkResponseItem.mk "r2"]) rfl rfl
  exact ⟨by simpa using h.1, by simpa using h.2 1⟩

/-- Claim C2 counterexample: with a one-message snapshot and a raising bulk
call, `_send_buffer` sends nothing to the demux - the uid 1 gets no failure
response, the exception escapes - refuting the claim that one failure
response per uid is deposited. -/
theorem C2_counterexample :
    (sendBuffer "idx" [Message.mk 1 "a"] (fun _ => Except.error "boom")).sent = [] ∧
    (sendBuffer "idx" [Message.mk 1 "a"] (fun _ => Except.error "boom")).error = some "boom" ∧
    ¬ ∃ m ∈ (sendBuffer "idx" [Message.mk 1 "a"] (fun _ => Except.error "boom")).sent,
        m.uid = 1 := by
  refine ⟨rfl, rfl, ?_⟩
  simp [sendBuffer]

/-- Claim C2 amended: `_send_buffer` has no exception handler, so when the
bulk call raises, no response Message is deposited for any uid of the
snapshot and the exception propagates out of the flush task. -/
theorem C2_amended_bulk_failure_sends_nothing (index : String)
    (events : List Message) (e : String)
    (bulk : List BulkDoc → Except String (List BulkResponseItem))
    (herr : bulk (events.map (fun ev => BulkDoc.mk index none ev.msg)) = Except.error e) :
    (sendBuffer index events bulk).sent = [] ∧
    (sendBuffer index events bulk).error = some e := by
  simp only [sendBuffer]
  rw [herr]
  exact ⟨rfl, rfl⟩

/-- Witness for the amended C2 at a concrete input. -/
theorem C2_amended_bulk_failure_sends_nothing_witness :
    (sendBuffer "idx" [Message.mk 1 "a"] (fun _ => Except.error "boom")).sent = [] ∧
    (sendBuffer "idx" [Message.mk 1 "a"] (fun _ => Except.error "boom")).error = some "boom" :=
  C2_amended_bulk_failure_sends_nothing "idx" [Message.mk 1 "a"] "boom"
    (fun _ => Except.error "boom") rfl

/-- Claim C3 counterexample: flushing an empty buffer still reaches the bulk
adaptor - `create_flush_buffer_task` spawns `_send_buffer` unconditionally
and `_send_buffer` issues the bulk call with an empty document list -
refuting the claim that an empty snapshot returns without invoking the
adaptor. -/
theorem C3_counterexample :
    (createFlushBufferTask "idx" (fun _ => Except.ok []) (Buffer.mk 5 30000 [])).1.bulkCall
      = some [] ∧
    ¬ (createFlushBufferTask "idx" (fun _ => Except.ok [])
        (Buffer.mk 5 30000 [])).1.bulkCall = none := by
  exact ⟨rfl, by simp [createFlushBufferTask, sendBuffer, Buffer.copy]⟩

/-- Claim C3 amended: every flush, including one with an empty snapshot,
hands the snapshot to `_send_buffer`, which always invokes the bulk adaptor
with one document per snapshot message (an empty list for an empty
snapshot), and then resets the buffer. -/
theorem C3_amended_flush_always_calls_bulk (index : String)
    (bulk : List BulkDoc → Except String (List BulkResponseItem)) (b : Buffer) :
    (createFlushBufferTask index bulk b).1.bulkCall
      = some (b.copy.map (fun e => BulkDoc.mk index none e.msg)) ∧
    (createFlushBufferTask index bulk b).2 = b.reset := by
  unfold createFlushBufferTask sendBuffer
  cases h : bulk (b.copy.map (fun e => BulkDoc.mk index none e.msg)) <;> simp [h]

/-- Claim C4: with the limit check run after every add, every snapshot the
main loop hands to a flush task - over any sequence of received messages and
timer completions, from the initial empty buffer - contains at most
`max_elements` messages (for a valid configuration, `max_elements ≥ 1`). -/
theorem C4_batches_bounded_by_max_elements (maxElements maxSize : Nat)
    (h : 1 ≤ maxElements) (ts : List TaskResult) :
    ∀ batch ∈ (runBatcher (initialState maxElements maxSize) ts).2,
      batch.length ≤ maxElements :=
  runBatcher_count_bound ts (initialState maxElements maxSize) (by simpa [initialState] using h)

/-- Witness for C4: with `max_elements = 2` the two-message batch flushed by
the count trigger is within the bound. -/
theorem C4_batches_bounded_by_max_elements_witness :
    1 ≤ 2 ∧ ([Message.mk 1 "a", Message.mk 2 "b"] : List Message).length ≤ 2 :=
  ⟨by decide,
   C4_batches_bounded_by_max_elements 2 100 (by decide)
     [TaskResult.msg (Message.mk 1 "a"), TaskResult.msg (Message.mk 2 "b")]
     [Message.mk 1 "a", Message.mk 2 "b"] (by decide)⟩

/-- Claim C5 counterexample: with `max_elements = 100`, `max_size = 50` and
three 20-byte messages, the size trigger dispatches a 60-byte batch of three
items none of which is oversize - refuting the claim that a single oversize
item is the only way a dispatched batch exceeds `max_size`.  (This is the
specification's own scenario S3.) -/
theorem C5_counterexample :
    (runBatcher (initialState 100 50)
      [TaskResult.msg (Message.mk 1 "aaaaaaaaaaaaaaaaaaaa"),
       TaskResult.msg (Message.mk 2 "aaaaaaaaaaaaaaaaaaaa"),
       TaskResult.msg (Message.mk 3 "aaaaaaaaaaaaaaaaaaaa")]).2
      = [[Message.mk 1 "aaaaaaaaaaaaaaaaaaaa", Message.mk 2 "aaaaaaaaaaaaaaaaaaaa",
          Message.mk 3 "aaaaaaaaaaaaaaaaaaaa"]] ∧
    50 < (([Message.mk 1 "aaaaaaaaaaaaaaaaaaaa", Message.mk 2 "aaaaaaaaaaaaaaaaaaaa",
            Message.mk 3 "aaaaaaaaaaaaaaaaaaaa"].map msgSize).sum) ∧
    ¬ ([Message.mk 1 "aaaaaaaaaaaaaaaaaaaa", Message.mk 2 "aaaaaaaaaaaaaaaaaaaa",
        Message.mk 3 "aaaaaaaaaaaaaaaaaaaa"] : List Message).length = 1 ∧
    msgSize (Message.mk 1 "aaaaaaaaaaaaaaaaaaaa") ≤ 50 ∧
    msgSize (Message.mk 2 "aaaaaaaaaaaaaaaaaaaa") ≤ 50 ∧
    msgSize (Message.mk 3 "aaaaaaaaaaaaaaaaaaaa") ≤ 50 := by
  decide

/-- Claim C5 amended: a message larger than `max_size` entering an empty
buffer is still admitted and the limit check immediately after the add
flushes it as a singleton batch (but this is not the only way a dispatched
batch can exceed `max_size`: several smaller messages can jointly cross the
threshold). -/
theorem C5_amended_oversize_flushed_as_singleton (s : BatcherState)
    (m : Message) (hempty : s.buffer.msgs = [])
    (hover : s.buffer.maxSize < msgSize m) :
    processTask s (TaskResult.msg m) =
      (BatcherState.mk (Buffer.mk s.buffer.maxElements s.buffer.maxSize []) false, [[m]]) := by
  obtain ⟨⟨me, ms, msgs⟩, armed⟩ := s
  simp only at hempty hover
  subst hempty
  simp only [processTask]
  rw [if_pos]
  · simp [Buffer.addMessage, Buffer.reset, Buffer.copy]
  · have hsz : (Buffer.mk me ms ([m] : List Message)).checkSizeLimit = true := by
      simp [Buffer.checkSizeLimit, Buffer.byteSize]
      exact Nat.le_of_lt hover
    simp [Buffer.addMessage, hsz]

/-- Witness for the amended C5: an 11-byte message against `max_size = 10`
is flushed on arrival as a singleton batch. -/
theorem C5_amended_oversize_flushed_as_singleton_witness :
    (initialState 100 10).buffer.msgs = [] ∧
    (initialState 100 10).buffer.maxSize < msgSize (Message.mk 7 "aaaaaaaaaaa") ∧
    processTask (initialState 100 10) (TaskResult.msg (Message.mk 7 "aaaaaaaaaaa")) =
      (BatcherState.mk (Buffer.mk 100 10 []) false, [[Message.mk 7 "aaaaaaaaaaa"]]) :=
  ⟨rfl, by decide,
   C5_amended_oversize_flushed_as_singleton (initialState 100 10)
     (Message.mk 7 "aaaaaaaaaaa") rfl (by decide)⟩

/-- Claim C6 counterexample: when the `done` set of the race contains both
the timer completion and a message, the `for task in done` loop processes
both - a timeout-driven flush of the current buffer occurs and the buffer is
reset before the message is added - refuting the claim that only the message
path is processed and the timer event is discarded. -/
theorem C6_counterexample :
    (runBatcher (BatcherState.mk (Buffer.mk 5 30000 [Message.mk 1 "x"]) true)
      [TaskResult.timeout, TaskResult.msg (Message.mk 2 "y")]).2
      = [[Message.mk 1 "x"]] ∧
    ¬ (runBatcher (BatcherState.mk (Buffer.mk 5 30000 [Message.mk 1 "x"]) true)
      [TaskResult.timeout, TaskResult.msg (Message.mk 2 "y")]).2 = [] ∧
    (runBatcher (BatcherState.mk (Buffer.mk 5 30000 [Message.mk 1 "x"]) true)
      [TaskResult.timeout, TaskResult.msg (Message.mk 2 "y")]).1.buffer.msgs
      = [Message.mk 2 "y"] ∧
    ¬ (runBatcher (BatcherState.mk (Buffer.mk 5 30000 [Message.mk 1 "x"]) true)
      [TaskResult.timeout, TaskResult.msg (Message.mk 2 "y")]).1.buffer.msgs
      = [Message.mk 1 "x", Message.mk 2 "y"] := by
  decide

/-- Claim C6 amended: when receive and timer complete simultaneously, every
completed task is processed: the timer completion triggers a flush of the
current buffer and a timer reset, after which the message is added to the
now-empty buffer and re-arms the timer (stated for a message that does not
itself hit a limit). -/
theorem C6_amended_both_tasks_processed (s : BatcherState) (m : Message)
    (h1 : 1 < s.buffer.maxElements) (h2 : msgSize m < s.buffer.maxSize) :
    runBatcher s [TaskResult.timeout, TaskResult.msg m] =
      (BatcherState.mk (Buffer.mk s.buffer.maxElements s.buffer.maxSize [m]) true,
       [s.buffer.msgs]) := by
  obtain ⟨⟨me, ms, msgs⟩, armed⟩ := s
  simp only at h1 h2
  simp only [runBatcher, processTask, Buffer.reset, Buffer.copy]
  rw [if_neg]
  · simp [Buffer.addMessage, Buffer.getLength]
  · intro hc
    rcases Bool.or_eq_true_iff.1 hc with h | h
    · simp only [Buffer.addMessage, Buffer.checkCountLimit, decide_eq_true_eq,
        List.length_append, List.length_nil, List.length_singleton] at h
      omega
    · simp only [Buffer.addMessage, Buffer.checkSizeLimit, Buffer.byteSize,
        decide_eq_true_eq, List.map_append, List.map_nil, List.map_cons,
        List.sum_append, List.sum_cons, List.sum_nil] at h
      omega

/-- Witness for the amended C6 at a concrete state and message. -/
theorem C6_amended_both_tasks_processed_witness :
    1 < 5 ∧ msgSize (Message.mk 2 "y") < 30000 ∧
    runBatcher (BatcherState.mk (Buffer.mk 5 30000 [Message.mk 1 "x"]) true)
      [TaskResult.timeout, TaskResult.msg (Message.mk 2 "y")] =
      (BatcherState.mk (Buffer.mk 5 30000 [Message.mk 2 "y"]) true,
       [[Message.mk 1 "x"]]) :=
  ⟨by decide, by decide,
   C6_amended_both_tasks_processed
     (BatcherState.mk (Buffer.mk 5 30000 [Message.mk 1 "x"]) true)
     (Message.mk 2 "y") (by decide) (by decide)⟩

/-- Claim C7 (code bug): the handler's call to `create_stateful_events`
passes two positional arguments while the definition accepts a single one,
so for every request the call raises `TypeError` instead of producing the
indexer dictionary - the repository's own core test makes the same
two-argument call. -/
theorem C7_handler_call_raises_type_error (body : List String → String)
    (events queue : String) :
    postStatefulEventsCall body events queue = CallOutcome.typeError := by
  simp [postStatefulEventsCall, pyCall, createStatefulEventsParamCount]

/-- Claim C8: the handler turns exactly a raised `WazuhError` into an HTTP
error with status 400 carrying the exception's message - a successful call
returns the JSON response and any other exception propagates, so no other
outcome yields the 400 - and the request-level timeout decorator argument is
exactly 30 seconds. -/
theorem C8_handler_maps_wazuh_error_to_400 :
    (∀ m, postStatefulEvents (CreateOutcome.wazuhError m) = HandlerResult.httpError m 400) ∧
    (∀ r, postStatefulEvents (CreateOutcome.ok r) = HandlerResult.jsonResponse r) ∧
    (∀ e, postStatefulEvents (CreateOutcome.otherError e) = HandlerResult.propagated e) ∧
    postStatefulEventsTimeoutSeconds = 30 :=
  ⟨fun _ => rfl, fun _ => rfl, fun _ => rfl, rfl⟩

/-- Claim C9 counterexample: `BatcherConfig.__init__` performs no
validation - constructing with `max_elements = 0`, `max_size = -1`,
`max_time_seconds = 0` is accepted and the values are stored verbatim,
refuting the claim that such a configuration is refused. -/
theorem C9_counterexample :
    batcherConfigInit 0 (-1) 0 = Except.ok (BatcherConfig.mk 0 (-1) 0) ∧
    (batcherConfigInit 0 (-1) 0).isOk = true :=
  ⟨rfl, rfl⟩

/-- Claim C9 amended: `BatcherConfig` recognizes exactly the three options
`max_elements`, `max_size` and `max_time_seconds` (a config value is nothing
but those three fields), but its constructor never refuses: every value,
including zero and negative ones, is accepted and stored verbatim. -/
theorem C9_amended_config_never_refuses :
    (∀ a b c : Int, batcherConfigInit a b c = Except.ok (BatcherConfig.mk a b c)) ∧
    (∀ cfg : BatcherConfig,
      cfg = BatcherConfig.mk cfg.max_elements cfg.max_size cfg.max_time_seconds) :=
  ⟨fun _ _ _ => rfl, fun _ => rfl⟩

theorem dictInsert_fresh (d : List (String × String)) (k v : String)
    (h : ¬ k ∈ d.map Prod.fst) : dictInsert d k v = d ++ [(k, v)] := by
  unfold dictInsert
  rw [if_neg]
  intro hx
  obtain ⟨p, hpmem, hpk⟩ := List.any_eq_true.1 hx
  exact h (List.mem_map.2 ⟨p, hpmem, by simpa using hpk⟩)

theorem encoder_foldl_eq (o : EncModel) (l : List String)
    (acc : List (String × String))
    (hfresh : ∀ a ∈ l, ¬ o.attributeMap a ∈ acc.map Prod.fst)
    (hnodup : (l.map o.attributeMap).Nodup) :
    l.foldl (fun result attr =>
        match o.value attr with
        | none => result
        | some v => dictInsert result (o.attributeMap attr) v) acc
      = acc ++ l.filterMap
          (fun attr => (o.value attr).map (fun v => (o.attributeMap attr, v))) := by
  induction l generalizing acc with
  | nil => simp
  | cons a rest ih =>
    have hnodup2 : (rest.map o.attributeMap).Nodup :=
      (List.nodup_cons.1 (by simpa using hnodup)).2
    have hnotin : ¬ o.attributeMap a ∈ rest.map o.attributeMap :=
      (List.nodup_cons.1 (by simpa using hnodup)).1
    simp only [List.foldl_cons, List.filterMap_cons]
    cases hv : o.value a with
    | none =>
      rw [ih acc (fun b hb => hfresh b (List.mem_cons_of_mem a hb)) hnodup2]
      simp [hv]
    | some v =>
      have hka : ¬ o.attributeMap a ∈ acc.map Prod.fst :=
        hfresh a (List.mem_cons_self a rest)
      have hfresh2 : ∀ b ∈ rest,
          ¬ o.attributeMap b ∈ (acc ++ [(o.attributeMap a, v)]).map Prod.fst := by
        intro b hb hmem
        rw [List.map_append] at hmem
        rcases List.mem_append.1 hmem with hcase | hcase
        · exact hfresh b (List.mem_cons_of_mem a hb) hcase
        · have heq : o.attributeMap b = o.attributeMap a := by simpa using hcase
          exact hnotin (heq ▸ List.mem_map_of_mem o.attributeMap hb)
      show List.foldl (fun result attr =>
            match o.value attr with
            | none => result
            | some w => dictInsert result (o.attributeMap attr) w)
          (dictInsert acc (o.attributeMap a) v) rest
        = acc ++ ((o.attributeMap a, v) :: rest.filterMap
            (fun attr => (o.value attr).map (fun w => (o.attributeMap attr, w))))
      rw [dictInsert_fresh acc (o.attributeMap a) v hka,
        ih (acc ++ [(o.attributeMap a, v)]) hfresh2 hnodup2]
      simp

/-- Claim C10: on a `Model` instance whose `attribute_map` sends the
attributes to pairwise distinct keys, `api.encoder.default` produces exactly
one entry per attribute whose value is not `None`, in attribute order and
under the `attribute_map` key - so `None`-valued fields never appear in the
serialized output. -/
theorem C10_encoder_skips_none_fields (o : EncModel)
    (hkeys : (o.swaggerTypes.map o.attributeMap).Nodup) :
    encoderDefault o = o.swaggerTypes.filterMap
      (fun attr => (o.value attr).map (fun v => (o.attributeMap attr, v))) := by
  unfold encoderDefault
  simpa using encoder_foldl_eq o o.swaggerTypes [] (by simp) hkeys

/-- Witness for C10 on a concrete two-attribute model with one `None`
field: only the non-`None` attribute appears, under its mapped key. -/
theorem C10_encoder_skips_none_fields_witness :
    encoderDefault
      (EncModel.mk ["id", "status"]
        (fun a => if a = "id" then "_id" else a)
        (fun a => if a = "id" then some "7" else none))
      = [("_id", "7")] := by
  have h := C10_encoder_skips_none_fields
    (EncModel.mk ["id", "status"]
      (fun a => if a = "id" then "_id" else a)
      (fun a => if a = "id" then some "7" else none))
    (by decide)
  simpa using h

end Wazuh
